import Mathlib

/-!
Verification of the release-client module of the sw360 Python API binding
(`sw360/releases.py` together with the error type `sw360/sw360error.py`).

The embedding is shallow: JSON values are the inductive `Json`; Python
dictionaries are association lists with unique keys (insertion order
preserved, assignment replaces in place, as CPython dicts do); the HTTP
transport collaborator (`api_get` inherited from the base mixin) and the
`requests` library are oracles carried in a `Client` record.  Each client
operation is a pure function from the client to its result together with
the list of HTTP requests it issued, so that "issues no PATCH" and
"performs no HTTP call" become statements about that trace.  An operation
that can raise returns `Except SW360Error`.
-/

/-- JSON values, as produced by `json.loads` / consumed by the `json=`
parameter of `requests`.  Objects are ordered association lists (CPython dicts
preserve insertion order); numbers are modelled as integers, which covers
every value the claims touch. -/
inductive Json where
  | null
  | bool (b : Bool)
  | num (n : Int)
  | str (s : String)
  | arr (elements : List Json)
  | obj (fields : List (String × Json))

/-- Python dict assignment `d[k] = v`: replace the first (in a CPython dict,
the only) binding of `k` in place, or append a fresh binding at the end. -/
def setEntry : List (String × Json) → String → Json → List (String × Json)
  | [], k, v => [(k, v)]
  | (k', v') :: rest, k, v =>
      if k' = k then (k, v) :: rest else (k', v') :: setEntry rest k v

/-- Python dict deletion `del d[k]`: drop the first binding of `k`. -/
def eraseEntry : List (String × Json) → String → List (String × Json)
  | [], _ => []
  | (k', v') :: rest, k => if k' = k then rest else (k', v') :: eraseEntry rest k

/-- Python truthiness of a JSON value (`if resp:` / `if not complete_data:`):
`None`, `False`, `0`, `""`, `[]` and `\x7b\x7d` are falsy. -/
def Json.truthy : Json → Bool
  | .null => false
  | .bool b => b
  | .num n => n != 0
  | .str s => s ≠ ""
  | .arr xs => ¬xs.isEmpty
  | .obj fs => ¬fs.isEmpty

/-- Python membership `k in j` for the values `json.loads` can return: key
lookup on a dict, element membership on a list, substring test on a string.
On the remaining scalars CPython raises `TypeError`; the API responses the
claims range over are objects, arrays or absent, so that branch is modelled
as `false` and never reached by the theorems below. -/
def Json.hasKey (j : Json) (k : String) : Bool :=
  match j with
  | .obj fs => fs.any (fun p => p.1 = k)
  | .arr xs => xs.any (fun x => match x with | Json.str s => s = k | _ => false)
  | .str s => decide (k.toList <:+: s.toList)
  | _ => false

/-- Python subscript `j[k]` on a dict, used by the source only under a
`k in j` guard; out of that domain it yields `null`. -/
def Json.getD (j : Json) (k : String) : Json :=
  match j with
  | .obj fs => (List.lookup k fs).getD Json.null
  | _ => Json.null

/-- A `requests` HTTP response.  `parsedText` embeds `json.loads(r.text)`
(equivalently `r.json()`): `some j` when the body parses to `j`, `none`
when parsing raises `JSONDecodeError`. -/
structure Response where
  statusCode : Nat
  parsedText : Option Json

/-- The `ok` property of a `requests` response: true exactly when the
status code is below 400 (so 3xx responses count as ok). -/
def Response.ok (r : Response) : Bool := r.statusCode < 400

inductive Method where
  | get
  | post
  | patch
  | delete
deriving DecidableEq, Repr

/-- One HTTP request as issued by the client: verb, full URL, and the JSON
body passed via `json=` (absent for GET and DELETE). -/
structure Request where
  method : Method
  url : String
  body : Option Json

/-- The collaborators of the mixin: the configured base `url`, the
transport `api_get` (returns the parsed JSON or `None`), and the `requests`
library for write verbs, modelled as an oracle from the request issued to
the response received. -/
structure Client where
  url : String
  apiGet : String → Option Json
  net : Request → Response

/-- The error type of `sw360/sw360error.py`.  `details` is doubly optional
to model Python attribute assignment: `none` means the attribute was never
assigned (reading it raises `AttributeError`), `some none` means it was
assigned Python `None`, `some (some j)` means it was assigned the parsed
JSON `j`. -/
structure SW360Error where
  message : String
  response : Option Response
  url : String
  details : Option (Option Json)

/-- `SW360Error.__init__(response=None, url="", message="")`: store the
three arguments; if a response was supplied, parse its body as JSON into
`details`, setting `details` to `None` when the parse raises
`JSONDecodeError` (the only exception the `try` can see, and it is caught,
so construction never raises — the embedding is a total function); with no
response the attribute is never assigned. -/
def SW360Error.init (response : Option Response) (url : String) (message : String) : SW360Error :=
  { message := message
    response := response
    url := url
    details := response.map (fun r => r.parsedText) }

/-- Python `str(response)` for an optional `requests` response, as used by
`IOError.__init__(str(response))`. -/
def pyStrOptResponse : Option Response → String
  | none => "None"
  | some r => "<Response [" ++ toString r.statusCode ++ "]>"

/-- The stringified form of the error: `IOError.__init__` is called with
`message` when `message` is truthy (non-empty), else with `str(response)`,
and `str` of an `IOError` with a single argument is that argument. -/
def SW360Error.strForm (e : SW360Error) : String :=
  if e.message ≠ "" then e.message else pyStrOptResponse e.response

/-- `ReleasesMixin.get_release`: one `api_get` on the concatenated URL,
result returned unchanged. -/
def get_release (c : Client) (release_id : String) : Option Json × List Request :=
  let full_url := c.url ++ "resource/api/releases/" ++ release_id
  (c.apiGet full_url, [⟨Method.get, full_url, none⟩])

/-- The envelope unwrapping repeated verbatim in each listing operation of
the source (`get_releases_by_name`, `get_all_releases`,
`get_releases_by_external_id`):
`if resp and ("_embedded" in resp) and (key in resp["_embedded"]):
resp = resp["_embedded"][key]`. -/
def unwrapEmbedded (key : String) (resp : Option Json) : Option Json :=
  match resp with
  | none => none
  | some r =>
      if r.truthy && r.hasKey "_embedded" && (r.getD "_embedded").hasKey key then
        some ((r.getD "_embedded").getD key)
      else
        some r

/-- `ReleasesMixin.get_releases_by_name`. -/
def get_releases_by_name (c : Client) (name : String) : Option Json × List Request :=
  let full_url := c.url ++ "resource/api/releases?name=" ++ name
  (unwrapEmbedded "sw360:releases" (c.apiGet full_url), [⟨Method.get, full_url, none⟩])

/-- `ReleasesMixin.get_all_releases`: build the collection URL, appending
`?allDetails=true` when the flag is set and then `?fields=` plus the filter
when it is truthy (non-empty), then unwrap the envelope. -/
def get_all_releases (c : Client) (fields : String) (all_details : Bool) :
    Option Json × List Request :=
  let full_url := c.url ++ "resource/api/releases"
  let full_url := if all_details then full_url ++ "?allDetails=true" else full_url
  let full_url := if fields ≠ "" then full_url ++ "?fields=" ++ fields else full_url
  (unwrapEmbedded "sw360:releases" (c.apiGet full_url), [⟨Method.get, full_url, none⟩])

/-- `ReleasesMixin.get_releases_by_external_id`. -/
def get_releases_by_external_id (c : Client) (ext_id_name ext_id_value : String) :
    Option Json × List Request :=
  let full_url := c.url ++ "resource/api/releases/searchByExternalIds?"
      ++ ext_id_name ++ "=" ++ ext_id_value
  (unwrapEmbedded "sw360:releases" (c.apiGet full_url), [⟨Method.get, full_url, none⟩])

/-- The mutation `create_new_release` performs on its `release_details`
dict before posting it: `release_details["name"] = name;
release_details["version"] = version;
release_details["componentId"] = component_id`. -/
def createDetails (name version component_id : String)
    (release_details : List (String × Json)) : List (String × Json) :=
  setEntry (setEntry (setEntry release_details "name" (Json.str name))
    "version" (Json.str version)) "componentId" (Json.str component_id)

/-- `ReleasesMixin.create_new_release`: mutate the details dict, POST it to
the collection endpoint, return `response.json()` when `response.ok`, else
raise `SW360Error(response, url)`. -/
def create_new_release (c : Client) (name version component_id : String)
    (release_details : List (String × Json)) :
    Except SW360Error (Option Json) × List Request :=
  let body := createDetails name version component_id release_details
  let url := c.url ++ "resource/api/releases"
  let req : Request := ⟨Method.post, url, some (Json.obj body)⟩
  let response := c.net req
  if response.ok then (Except.ok response.parsedText, [req])
  else (Except.error (SW360Error.init (some response) url ""), [req])

/-- `ReleasesMixin.update_release`: raise
`SW360Error(message="No release id provided!")` on a falsy id before any
HTTP traffic; otherwise PATCH the release to `/releases/\x7bid\x7d` and
return `response.json()` when ok, else raise `SW360Error(response, url)`. -/
def update_release (c : Client) (release : Json) (release_id : String) :
    Except SW360Error (Option Json) × List Request :=
  if release_id = "" then
    (Except.error (SW360Error.init none "" "No release id provided!"), [])
  else
    let url := c.url ++ "resource/api/releases/" ++ release_id
    let req : Request := ⟨Method.patch, url, some release⟩
    let response := c.net req
    if response.ok then (Except.ok response.parsedText, [req])
    else (Except.error (SW360Error.init (some response) url ""), [req])

/-- `ReleasesMixin.delete_release`: same precondition as `update_release`,
then DELETE. -/
def delete_release (c : Client) (release_id : String) :
    Except SW360Error (Option Json) × List Request :=
  if release_id = "" then
    (Except.error (SW360Error.init none "" "No release id provided!"), [])
  else
    let url := c.url ++ "resource/api/releases/" ++ release_id
    let req : Request := ⟨Method.delete, url, none⟩
    let response := c.net req
    if response.ok then (Except.ok response.parsedText, [req])
    else (Except.error (SW360Error.init (some response) url ""), [req])

/-- The conventional release key under which the external-identifier
mapping is nested (the spec data model calls it "a conventional key";
the SW360 REST payloads use `externalIds`). -/
def externalIdsKey : String := "externalIds"

/-- Modelled from the spec: the shared merge helper
`BaseMixin._update_external_ids` (the spec name is
`apply_external_id_update(release, name, value, mode) ->
(old_value, updated_release, changed)`) lives in the base mixin, which is
not among the sources.  Its semantics follow the spec: when no
external-identifiers map exists or the name is absent from it, set the
name to the new value unconditionally, report the old value as empty and
report changed; when the name exists, mode `overwrite` replaces it, mode
`delete` removes the entry (both report the old value and changed), and
mode `none` — like any other mode value — leaves the release unchanged and
reports the existing value and not-changed. -/
def apply_external_id_update (release : Json) (ext_id_name ext_id_value update_mode : String) :
    Json × Json × Bool :=
  match release with
  | Json.obj fs =>
      match List.lookup externalIdsKey fs with
      | some (Json.obj ids) =>
          match List.lookup ext_id_name ids with
          | some old =>
              if update_mode = "overwrite" then
                (old, Json.obj (setEntry fs externalIdsKey
                  (Json.obj (setEntry ids ext_id_name (Json.str ext_id_value)))), true)
              else if update_mode = "delete" then
                (old, Json.obj (setEntry fs externalIdsKey
                  (Json.obj (eraseEntry ids ext_id_name))), true)
              else
                (old, release, false)
          | none =>
              (Json.str "", Json.obj (setEntry fs externalIdsKey
                (Json.obj (setEntry ids ext_id_name (Json.str ext_id_value)))), true)
      | _ =>
          (Json.str "", Json.obj (setEntry fs externalIdsKey
            (Json.obj [(ext_id_name, Json.str ext_id_value)])), true)
  | _ => (Json.str "", release, false)

/-- `ReleasesMixin.update_release_external_id`: fetch the release; when it
is falsy (absent or empty) return `""` with no further traffic; otherwise
run the merge helper and, when it reports a change, PATCH the updated
release back via `update_release` (whose failure propagates); return the
old value. -/
def update_release_external_id (c : Client)
    (ext_id_name ext_id_value release_id update_mode : String) :
    Except SW360Error Json × List Request :=
  let fetched := get_release c release_id
  match fetched.1 with
  | none => (Except.ok (Json.str ""), fetched.2)
  | some complete_data =>
      if complete_data.truthy = false then (Except.ok (Json.str ""), fetched.2)
      else
        let r := apply_external_id_update complete_data ext_id_name ext_id_value update_mode
        if r.2.2 then
          match update_release c r.2.1 release_id with
          | (Except.ok _, tr) => (Except.ok r.1, fetched.2 ++ tr)
          | (Except.error e, tr) => (Except.error e, fetched.2 ++ tr)
        else (Except.ok r.1, fetched.2)


/-- C8: for every release id, `get_release` issues its GET through the
transport collaborator to the exact string concatenation of the base URL,
`resource/api/releases/` and the id, and returns the transport result
unchanged, without inspecting it. -/
theorem get_release_exact_url (c : Client) (release_id : String) :
    get_release c release_id
      = (c.apiGet (c.url ++ "resource/api/releases/" ++ release_id),
         [⟨Method.get, c.url ++ "resource/api/releases/" ++ release_id, none⟩]) := rfl

/-- C9: `get_all_releases` builds its URL from the bare collection endpoint
by appending `?allDetails=true` exactly when the all-details flag is set
and then `?fields=` plus the field filter exactly when it is non-empty, so
with both set the URL is
base + `resource/api/releases?allDetails=true?fields=` + fields. -/
theorem get_all_releases_url_spec (c : Client) (fields : String) (all_details : Bool) :
    ((get_all_releases c fields all_details).2
      = [⟨Method.get,
          c.url ++ "resource/api/releases"
            ++ (if all_details then "?allDetails=true" else "")
            ++ (if fields ≠ "" then "?fields=" ++ fields else ""), none⟩])
    ∧ (fields ≠ "" →
        (get_all_releases c fields true).2
          = [⟨Method.get,
              c.url ++ "resource/api/releases?allDetails=true?fields=" ++ fields, none⟩]) := by
  constructor
  · cases all_details <;> by_cases hf : fields = "" <;>
      simp [get_all_releases, hf, ← String.append_assoc]
  · intro hf
    simp only [get_all_releases, if_pos rfl, if_pos hf, hf, ite_true]
    rw [String.append_assoc c.url "resource/api/releases" "?allDetails=true",
      show ("resource/api/releases" ++ "?allDetails=true" : String)
        = "resource/api/releases?allDetails=true" from rfl,
      String.append_assoc c.url "resource/api/releases?allDetails=true" "?fields=",
      show ("resource/api/releases?allDetails=true" ++ "?fields=" : String)
        = "resource/api/releases?allDetails=true?fields=" from rfl]

/-- C4: on an empty release id, `update_release` (for every release body)
and `delete_release` raise the typed error carrying only the message
`No release id provided!` — response and URL fields empty — and their
request trace is empty: the raise happens before any HTTP call. -/
theorem write_ops_empty_id_precondition (c : Client) (release : Json) :
    update_release c release ""
        = (Except.error (SW360Error.init none "" "No release id provided!"), [])
    ∧ delete_release c ""
        = (Except.error (SW360Error.init none "" "No release id provided!"), [])
    ∧ (SW360Error.init none "" "No release id provided!").message = "No release id provided!"
    ∧ (SW360Error.init none "" "No release id provided!").response = none
    ∧ (SW360Error.init none "" "No release id provided!").url = "" := by
  exact ⟨rfl, rfl, rfl, rfl, rfl⟩

/-- C10: when the error is constructed without a response — as on the
precondition failures of `update_release` and `delete_release` — the
`details` attribute is never assigned at all (`details = none` in the
double-`Option` encoding, meaning attribute access raises), rather than
being assigned the Python `None` value (`some none`). -/
theorem error_without_response_details_unassigned (c : Client) (release : Json)
    (url message : String) :
    ((SW360Error.init none url message).details = none)
    ∧ ((SW360Error.init none url message).details ≠ some none)
    ∧ ((update_release c release "").1
        = Except.error (SW360Error.init none "" "No release id provided!"))
    ∧ ((delete_release c "").1
        = Except.error (SW360Error.init none "" "No release id provided!")) := by
  exact ⟨rfl, by simp [SW360Error.init], rfl, rfl⟩

/-- C7: when a response is supplied to the error constructor, `details` is
assigned the response body parsed as JSON, or the explicit `None` value
when parsing fails, and construction never raises (the embedding of the
constructor is a total function); the stringified form equals the message
when a non-empty message is provided and the string form of the response
otherwise. -/
theorem error_with_response_details_and_str (r : Response) (url msg : String) :
    ((SW360Error.init (some r) url msg).details = some r.parsedText)
    ∧ (∀ j, r.parsedText = some j → (SW360Error.init (some r) url msg).details = some (some j))
    ∧ (r.parsedText = none → (SW360Error.init (some r) url msg).details = some none)
    ∧ (msg ≠ "" → (SW360Error.init (some r) url msg).strForm = msg)
    ∧ (msg = "" → (SW360Error.init (some r) url msg).strForm = pyStrOptResponse (some r)) := by
  refine ⟨rfl, ?_, ?_, ?_, ?_⟩
  · intro j hj; simp [SW360Error.init, hj]
  · intro hj; simp [SW360Error.init, hj]
  · intro hm; simp [SW360Error.init, SW360Error.strForm, hm]
  · intro hm; simp [SW360Error.init, SW360Error.strForm, hm]

theorem error_with_response_details_and_str_witness :
    ((SW360Error.init (some ⟨404, some (Json.str "err")⟩) "http://u" "boom").details
        = some (some (Json.str "err")))
    ∧ ((SW360Error.init (some ⟨404, some (Json.str "err")⟩) "http://u" "boom").strForm
        = "boom")
    ∧ ((SW360Error.init (some ⟨500, none⟩) "http://u" "").details = some none)
    ∧ ((SW360Error.init (some ⟨500, none⟩) "http://u" "").strForm = "<Response [500]>") := by
  have h1 := error_with_response_details_and_str ⟨404, some (Json.str "err")⟩ "http://u" "boom"
  have h2 := error_with_response_details_and_str ⟨500, none⟩ "http://u" ""
  refine ⟨h1.2.1 _ rfl, h1.2.2.2.1 (by decide), h2.2.2.1 rfl, ?_⟩
  rw [h2.2.2.2.2 rfl]; rfl

/-- C2: whenever the transport GET for the release returns `None`,
`update_release_external_id` returns the empty string as a normal result
(no exception) and issues no HTTP call beyond the initial fetch. -/
theorem update_release_external_id_missing_release (c : Client)
    (ext_id_name ext_id_value release_id update_mode : String)
    (h : c.apiGet (c.url ++ "resource/api/releases/" ++ release_id) = none) :
    update_release_external_id c ext_id_name ext_id_value release_id update_mode
      = (Except.ok (Json.str ""),
         [⟨Method.get, c.url ++ "resource/api/releases/" ++ release_id, none⟩]) := by
  simp [update_release_external_id, get_release, h]

def noneClient : Client :=
  { url := "http://sw360.org/"
    apiGet := fun _ => none
    net := fun _ => ⟨200, none⟩ }

theorem update_release_external_id_missing_release_witness :
    update_release_external_id noneClient "X" "2" "r001" "none"
      = (Except.ok (Json.str ""),
         [⟨Method.get, "http://sw360.org/" ++ "resource/api/releases/" ++ "r001", none⟩]) :=
  update_release_external_id_missing_release noneClient "X" "2" "r001" "none" rfl

/-- C3: `create_new_release("R","1.0","C1")` with no extra details issues a
POST whose JSON body is exactly the three fields name, version and
componentId, and a second call with no extra map leaks no state: although
CPython evaluates the default `release_details=\x7b\x7d` dict once and the
first call mutates it (so the second call receives the dict as the first
call left it, threaded explicitly below), the second POST body still
contains exactly the three fields of the second call, because the call
overwrites all three keys. -/
theorem create_new_release_exact_body_no_leak (c : Client) (n2 v2 c2 : String) :
    ((create_new_release c "R" "1.0" "C1" []).2
        = [⟨Method.post, c.url ++ "resource/api/releases",
            some (Json.obj [("name", Json.str "R"), ("version", Json.str "1.0"),
              ("componentId", Json.str "C1")])⟩])
    ∧ ((create_new_release c n2 v2 c2 (createDetails "R" "1.0" "C1" [])).2
        = [⟨Method.post, c.url ++ "resource/api/releases",
            some (Json.obj [("name", Json.str n2), ("version", Json.str v2),
              ("componentId", Json.str c2)])⟩]) := by
  have h1 : createDetails "R" "1.0" "C1" []
      = [("name", Json.str "R"), ("version", Json.str "1.0"),
         ("componentId", Json.str "C1")] := rfl
  have h2 : createDetails n2 v2 c2 (createDetails "R" "1.0" "C1" [])
      = [("name", Json.str n2), ("version", Json.str v2),
         ("componentId", Json.str c2)] := rfl
  constructor <;> simp only [create_new_release, h1, h2] <;> split <;> rfl

theorem get_all_releases_url_spec_witness :
    (get_all_releases noneClient "createdOn" true).2
      = [⟨Method.get,
          "http://sw360.org/" ++ "resource/api/releases?allDetails=true?fields="
            ++ "createdOn", none⟩] :=
  (get_all_releases_url_spec noneClient "createdOn" true).2 (by decide)

/-- C5 (amended): each write operation — `create_new_release`,
`update_release` with a non-empty id, `delete_release` — returns
`response.json()` exactly when the response satisfies the `requests`
library `ok` predicate, that is status code below 400 (which admits 3xx
responses, not only 2xx), and raises the typed error carrying the failed
response and the request URL exactly when the status code is at least
400. -/
theorem write_ops_ok_iff_status_lt_400 (c : Client) (name version component_id : String)
    (release_details : List (String × Json)) (release : Json) (release_id : String)
    (hrid : release_id ≠ "") :
    (((c.net ⟨Method.post, c.url ++ "resource/api/releases",
          some (Json.obj (createDetails name version component_id release_details))⟩).statusCode
            < 400 →
        (create_new_release c name version component_id release_details).1
          = Except.ok (c.net ⟨Method.post, c.url ++ "resource/api/releases",
              some (Json.obj (createDetails name version component_id
                release_details))⟩).parsedText)
      ∧ (400 ≤ (c.net ⟨Method.post, c.url ++ "resource/api/releases",
            some (Json.obj (createDetails name version component_id
              release_details))⟩).statusCode →
          (create_new_release c name version component_id release_details).1
            = Except.error (SW360Error.init
                (some (c.net ⟨Method.post, c.url ++ "resource/api/releases",
                  some (Json.obj (createDetails name version component_id
                    release_details))⟩))
                (c.url ++ "resource/api/releases") "")))
    ∧ (((c.net ⟨Method.patch, c.url ++ "resource/api/releases/" ++ release_id,
          some release⟩).statusCode < 400 →
        (update_release c release release_id).1
          = Except.ok (c.net ⟨Method.patch, c.url ++ "resource/api/releases/" ++ release_id,
              some release⟩).parsedText)
      ∧ (400 ≤ (c.net ⟨Method.patch, c.url ++ "resource/api/releases/" ++ release_id,
            some release⟩).statusCode →
          (update_release c release release_id).1
            = Except.error (SW360Error.init
                (some (c.net ⟨Method.patch, c.url ++ "resource/api/releases/" ++ release_id,
                  some release⟩))
                (c.url ++ "resource/api/releases/" ++ release_id) "")))
    ∧ (((c.net ⟨Method.delete, c.url ++ "resource/api/releases/" ++ release_id,
          none⟩).statusCode < 400 →
        (delete_release c release_id).1
          = Except.ok (c.net ⟨Method.delete, c.url ++ "resource/api/releases/" ++ release_id,
              none⟩).parsedText)
      ∧ (400 ≤ (c.net ⟨Method.delete, c.url ++ "resource/api/releases/" ++ release_id,
            none⟩).statusCode →
          (delete_release c release_id).1
            = Except.error (SW360Error.init
                (some (c.net ⟨Method.delete, c.url ++ "resource/api/releases/" ++ release_id,
                  none⟩))
                (c.url ++ "resource/api/releases/" ++ release_id) ""))) := by
  refine ⟨⟨fun hcok => ?_, fun hcerr => ?_⟩, ⟨fun huok => ?_, fun huerr => ?_⟩,
    fun hdok => ?_, fun hderr => ?_⟩
  · simp [create_new_release, Response.ok, hcok]
  · simp [create_new_release, Response.ok, Nat.not_lt.mpr hcerr]
  · simp [update_release, Response.ok, hrid, huok]
  · simp [update_release, Response.ok, hrid, Nat.not_lt.mpr huerr]
  · simp [delete_release, Response.ok, hrid, hdok]
  · simp [delete_release, Response.ok, hrid, Nat.not_lt.mpr hderr]

def okClient : Client :=
  { url := "http://sw360.org/"
    apiGet := fun _ => none
    net := fun _ => ⟨200, some (Json.str "done")⟩ }

def errClient : Client :=
  { url := "http://sw360.org/"
    apiGet := fun _ => none
    net := fun _ => ⟨500, some (Json.str "oops")⟩ }

theorem write_ops_ok_iff_status_lt_400_witness :
    ((update_release okClient (Json.obj []) "r001").1 = Except.ok (some (Json.str "done")))
    ∧ ((delete_release errClient "r001").1
        = Except.error (SW360Error.init (some ⟨500, some (Json.str "oops")⟩)
            ("http://sw360.org/" ++ "resource/api/releases/" ++ "r001") "")) := by
  have h1 := write_ops_ok_iff_status_lt_400 okClient "R" "1.0" "C1" [] (Json.obj []) "r001"
    (by decide)
  have h2 := write_ops_ok_iff_status_lt_400 errClient "R" "1.0" "C1" [] (Json.obj []) "r001"
    (by decide)
  exact ⟨h1.2.1.1 (by decide), h2.2.2.2 (by decide)⟩

def redirectClient : Client :=
  { url := "http://sw360.org/"
    apiGet := fun _ => none
    net := fun _ => ⟨304, some (Json.str "cached")⟩ }

/-- C5 counterexample: a 304 response is not a 2xx response, yet
`create_new_release` and `delete_release` return its parsed body as a
success instead of raising — the source tests `response.ok`, which is
status below 400, not membership in the 2xx class. -/
theorem write_ops_not_2xx_but_ok_counterexample :
    (¬(200 ≤ 304 ∧ 304 < 300))
    ∧ ((redirectClient.net ⟨Method.post, "http://sw360.org/" ++ "resource/api/releases",
          some (Json.obj (createDetails "R" "1.0" "C1" []))⟩).statusCode = 304)
    ∧ ((create_new_release redirectClient "R" "1.0" "C1" []).1
        = Except.ok (some (Json.str "cached")))
    ∧ ((delete_release redirectClient "r001").1 = Except.ok (some (Json.str "cached"))) := by
  exact ⟨by omega, rfl, rfl, rfl⟩

theorem hasKey_obj_eq_lookup (k : String) (fs : List (String × Json)) :
    (Json.obj fs).hasKey k = (List.lookup k fs).isSome := by
  induction fs with
  | nil => rfl
  | cons p rest ih =>
      obtain ⟨k', v'⟩ := p
      by_cases hk : k = k'
      · subst hk
        simp [Json.hasKey, List.lookup]
      · have hb : (k == k') = false := beq_eq_false_iff_ne.mpr hk
        have hk' : (k' = k) = False := eq_false (fun h => hk h.symm)
        simp only [Json.hasKey] at ih
        simp only [Json.hasKey, List.any_cons, List.lookup, hb, hk', decide_False,
          Bool.false_or]
        exact ih

theorem hasKey_of_lookup (k : String) (fs : List (String × Json)) (v : Json)
    (h : List.lookup k fs = some v) : (Json.obj fs).hasKey k = true := by
  rw [hasKey_obj_eq_lookup, h]
  rfl

theorem getD_obj_of_lookup (k : String) (fs : List (String × Json)) (v : Json)
    (h : List.lookup k fs = some v) : (Json.obj fs).getD k = v := by
  simp [Json.getD, h]

/-- C6: each listing operation (`get_all_releases`, `get_releases_by_name`,
`get_releases_by_external_id`) returns the shared envelope unwrapping of
the transport GET result, and that unwrapping yields the inner list at
`_embedded`.`sw360:releases` when both keys are present, and the raw
response unchanged — not an error — when the response is absent, falsy, or
lacks either key. -/
theorem listing_ops_unwrap_spec (c : Client) (fields name ext_id_name ext_id_value : String)
    (all_details : Bool) :
    (∃ u, (get_all_releases c fields all_details).1
        = unwrapEmbedded "sw360:releases" (c.apiGet u))
    ∧ ((get_releases_by_name c name).1
        = unwrapEmbedded "sw360:releases"
            (c.apiGet (c.url ++ "resource/api/releases?name=" ++ name)))
    ∧ ((get_releases_by_external_id c ext_id_name ext_id_value).1
        = unwrapEmbedded "sw360:releases"
            (c.apiGet (c.url ++ "resource/api/releases/searchByExternalIds?"
              ++ ext_id_name ++ "=" ++ ext_id_value)))
    ∧ (unwrapEmbedded "sw360:releases" none = none)
    ∧ (∀ fs gs l, List.lookup "_embedded" fs = some (Json.obj gs) →
        List.lookup "sw360:releases" gs = some l →
        unwrapEmbedded "sw360:releases" (some (Json.obj fs)) = some l)
    ∧ (∀ r : Json, (r.truthy = false ∨ r.hasKey "_embedded" = false
          ∨ (r.getD "_embedded").hasKey "sw360:releases" = false) →
        unwrapEmbedded "sw360:releases" (some r) = some r) := by
  refine ⟨⟨_, rfl⟩, rfl, rfl, rfl, ?_, ?_⟩
  · intro fs gs l h1 h2
    have hk1 := hasKey_of_lookup _ _ _ h1
    have hd1 := getD_obj_of_lookup _ _ _ h1
    have hk2 := hasKey_of_lookup _ _ _ h2
    have hd2 := getD_obj_of_lookup _ _ _ h2
    have htr : (Json.obj fs).truthy = true := by
      cases fs with
      | nil => simp [List.lookup] at h1
      | cons p rest => simp [Json.truthy]
    simp [unwrapEmbedded, htr, hk1, hd1, hk2, hd2]
  · intro r h
    rcases h with h | h | h <;> simp [unwrapEmbedded, h]

def envClient : Client :=
  { url := "http://sw360.org/"
    apiGet := fun _ => some (Json.obj
      [("_embedded", Json.obj [("sw360:releases", Json.arr [Json.str "r1"])])])
    net := fun _ => ⟨200, none⟩ }

theorem listing_ops_unwrap_spec_witness :
    ((get_releases_by_name envClient "R").1 = some (Json.arr [Json.str "r1"]))
    ∧ (unwrapEmbedded "sw360:releases" (some (Json.obj [("a", Json.num 1)]))
        = some (Json.obj [("a", Json.num 1)])) := by
  have h := listing_ops_unwrap_spec envClient "" "R" "X" "1" false
  constructor
  · rw [h.2.1]
    exact h.2.2.2.2.1 [("_embedded", Json.obj [("sw360:releases", Json.arr [Json.str "r1"])])]
      [("sw360:releases", Json.arr [Json.str "r1"])] (Json.arr [Json.str "r1"]) rfl rfl
  · refine h.2.2.2.2.2 _ (Or.inr (Or.inl ?_))
    simp [Json.hasKey]

theorem lookup_setEntry_self (l : List (String × Json)) (k : String) (v : Json) :
    List.lookup k (setEntry l k v) = some v := by
  induction l with
  | nil => simp [setEntry, List.lookup]
  | cons p rest ih =>
      obtain ⟨k', v'⟩ := p
      by_cases hk : k' = k
      · simp [setEntry, hk, List.lookup]
      · have hb : (k == k') = false := beq_eq_false_iff_ne.mpr (fun h => hk h.symm)
        simp [setEntry, hk, List.lookup, hb, ih]

theorem lookup_eq_none_of_keys_not_mem (l : List (String × Json)) (k : String)
    (h : ∀ p ∈ l, p.1 ≠ k) : List.lookup k l = none := by
  induction l with
  | nil => rfl
  | cons p rest ih =>
      obtain ⟨k', v'⟩ := p
      have hb : (k == k') = false :=
        beq_eq_false_iff_ne.mpr (fun hkk => h (k', v') (by simp) hkk.symm)
      simp only [List.lookup, hb]
      exact ih (fun q hq => h q (List.mem_cons_of_mem _ hq))

theorem lookup_eraseEntry_self (l : List (String × Json)) (k : String)
    (hnd : (l.map Prod.fst).Nodup) : List.lookup k (eraseEntry l k) = none := by
  induction l with
  | nil => rfl
  | cons p rest ih =>
      obtain ⟨k', v'⟩ := p
      rw [List.map_cons, List.nodup_cons] at hnd
      by_cases hk : k' = k
      · subst hk
        rw [eraseEntry, if_pos rfl]
        refine lookup_eq_none_of_keys_not_mem rest k' (fun q hq hqk => hnd.1 ?_)
        rw [← hqk]
        exact List.mem_map.mpr ⟨q, hq, rfl⟩
      · have hb : (k == k') = false := beq_eq_false_iff_ne.mpr (fun h => hk h.symm)
        rw [eraseEntry, if_neg hk]
        simp only [List.lookup, hb]
        exact ih hnd.2

theorem apply_present_none (fs ids : List (String × Json)) (old : Json)
    (ext_id_name ext_id_value : String)
    (hids : List.lookup externalIdsKey fs = some (Json.obj ids))
    (hpres : List.lookup ext_id_name ids = some old) :
    apply_external_id_update (Json.obj fs) ext_id_name ext_id_value "none"
      = (old, Json.obj fs, false) := by
  simp [apply_external_id_update, hids, hpres]

theorem apply_present_overwrite (fs ids : List (String × Json)) (old : Json)
    (ext_id_name ext_id_value : String)
    (hids : List.lookup externalIdsKey fs = some (Json.obj ids))
    (hpres : List.lookup ext_id_name ids = some old) :
    apply_external_id_update (Json.obj fs) ext_id_name ext_id_value "overwrite"
      = (old, Json.obj (setEntry fs externalIdsKey
          (Json.obj (setEntry ids ext_id_name (Json.str ext_id_value)))), true) := by
  simp [apply_external_id_update, hids, hpres]

theorem apply_present_delete (fs ids : List (String × Json)) (old : Json)
    (ext_id_name ext_id_value : String)
    (hids : List.lookup externalIdsKey fs = some (Json.obj ids))
    (hpres : List.lookup ext_id_name ids = some old) :
    apply_external_id_update (Json.obj fs) ext_id_name ext_id_value "delete"
      = (old, Json.obj (setEntry fs externalIdsKey
          (Json.obj (eraseEntry ids ext_id_name))), true) := by
  simp [apply_external_id_update, hids, hpres]

theorem apply_absent_name (fs ids : List (String × Json))
    (ext_id_name ext_id_value update_mode : String)
    (hids : List.lookup externalIdsKey fs = some (Json.obj ids))
    (habs : List.lookup ext_id_name ids = none) :
    apply_external_id_update (Json.obj fs) ext_id_name ext_id_value update_mode
      = (Json.str "", Json.obj (setEntry fs externalIdsKey
          (Json.obj (setEntry ids ext_id_name (Json.str ext_id_value)))), true) := by
  simp [apply_external_id_update, hids, habs]

theorem apply_absent_map (fs : List (String × Json))
    (ext_id_name ext_id_value update_mode : String)
    (hnomap : List.lookup externalIdsKey fs = none) :
    apply_external_id_update (Json.obj fs) ext_id_name ext_id_value update_mode
      = (Json.str "", Json.obj (setEntry fs externalIdsKey
          (Json.obj [(ext_id_name, Json.str ext_id_value)])), true) := by
  simp [apply_external_id_update, hnomap]

theorem uid_unfold (c : Client) (release_id ext_id_name ext_id_value update_mode : String)
    (fs : List (String × Json))
    (hresp : c.apiGet (c.url ++ "resource/api/releases/" ++ release_id)
        = some (Json.obj fs))
    (hfs : fs ≠ [])
    (hnet : ∀ req, (c.net req).statusCode < 400)
    (hrid : release_id ≠ "") :
    update_release_external_id c ext_id_name ext_id_value release_id update_mode
      = (Except.ok
          (apply_external_id_update (Json.obj fs) ext_id_name ext_id_value update_mode).1,
         if (apply_external_id_update (Json.obj fs) ext_id_name ext_id_value update_mode).2.2
         then
           [⟨Method.get, c.url ++ "resource/api/releases/" ++ release_id, none⟩,
            ⟨Method.patch, c.url ++ "resource/api/releases/" ++ release_id,
             some (apply_external_id_update (Json.obj fs) ext_id_name
               ext_id_value update_mode).2.1⟩]
         else [⟨Method.get, c.url ++ "resource/api/releases/" ++ release_id, none⟩]) := by
  have htr : (Json.obj fs).truthy = true := by
    cases fs with
    | nil => exact absurd rfl hfs
    | cons p r => simp [Json.truthy]
  have hok : ∀ req, (c.net req).ok = true := by
    intro req
    simp [Response.ok, hnet req]
  simp only [update_release_external_id, get_release, hresp, htr, Bool.true_eq_false,
    if_false]
  cases hupd : (apply_external_id_update (Json.obj fs) ext_id_name
      ext_id_value update_mode).2.2 with
  | false => simp [hupd]
  | true =>
      simp only [hupd, if_true, update_release, hrid, if_neg hrid, hok, ite_true]
      simp

/-- C1: on a release whose external-identifiers map already contains the
given id-name, mode `none` returns the existing value and issues no PATCH;
mode `overwrite` returns the old value and issues a PATCH whose body maps
the id-name to the new value; mode `delete` returns the old value and
issues a PATCH whose body has no entry for the id-name; and when the
id-name is absent from the map, or the map itself is absent, every mode
sets the id-name to the given value, returns an empty old value, and
issues a PATCH.  The merge helper lives in the base mixin outside the
given sources and is modelled from the spec as
`apply_external_id_update`. -/
theorem update_release_external_id_modes (c : Client)
    (release_id ext_id_name ext_id_value : String) (fs : List (String × Json))
    (hresp : c.apiGet (c.url ++ "resource/api/releases/" ++ release_id)
        = some (Json.obj fs))
    (hfs : fs ≠ [])
    (hnet : ∀ req, (c.net req).statusCode < 400)
    (hrid : release_id ≠ "") :
    (∀ ids old, List.lookup externalIdsKey fs = some (Json.obj ids) →
        List.lookup ext_id_name ids = some old →
        (update_release_external_id c ext_id_name ext_id_value release_id "none"
            = (Except.ok old,
               [⟨Method.get, c.url ++ "resource/api/releases/" ++ release_id, none⟩]))
        ∧ (∃ b, update_release_external_id c ext_id_name ext_id_value release_id "overwrite"
              = (Except.ok old,
                 [⟨Method.get, c.url ++ "resource/api/releases/" ++ release_id, none⟩,
                  ⟨Method.patch, c.url ++ "resource/api/releases/" ++ release_id, some b⟩])
            ∧ (b.getD externalIdsKey).getD ext_id_name = Json.str ext_id_value
            ∧ (b.getD externalIdsKey).hasKey ext_id_name = true))
    ∧ (∀ ids old, List.lookup externalIdsKey fs = some (Json.obj ids) →
        List.lookup ext_id_name ids = some old →
        (ids.map Prod.fst).Nodup →
        ∃ b, update_release_external_id c ext_id_name ext_id_value release_id "delete"
              = (Except.ok old,
                 [⟨Method.get, c.url ++ "resource/api/releases/" ++ release_id, none⟩,
                  ⟨Method.patch, c.url ++ "resource/api/releases/" ++ release_id, some b⟩])
            ∧ (b.getD externalIdsKey).hasKey ext_id_name = false)
    ∧ (∀ ids, List.lookup externalIdsKey fs = some (Json.obj ids) →
        List.lookup ext_id_name ids = none →
        ∀ update_mode,
          ∃ b, update_release_external_id c ext_id_name ext_id_value release_id update_mode
              = (Except.ok (Json.str ""),
                 [⟨Method.get, c.url ++ "resource/api/releases/" ++ release_id, none⟩,
                  ⟨Method.patch, c.url ++ "resource/api/releases/" ++ release_id, some b⟩])
            ∧ (b.getD externalIdsKey).getD ext_id_name = Json.str ext_id_value
            ∧ (b.getD externalIdsKey).hasKey ext_id_name = true)
    ∧ (List.lookup externalIdsKey fs = none →
        ∀ update_mode,
          ∃ b, update_release_external_id c ext_id_name ext_id_value release_id update_mode
              = (Except.ok (Json.str ""),
                 [⟨Method.get, c.url ++ "resource/api/releases/" ++ release_id, none⟩,
                  ⟨Method.patch, c.url ++ "resource/api/releases/" ++ release_id, some b⟩])
            ∧ (b.getD externalIdsKey).getD ext_id_name = Json.str ext_id_value
            ∧ (b.getD externalIdsKey).hasKey ext_id_name = true) := by
  refine ⟨?_, ?_, ?_, ?_⟩
  · intro ids old hids hpres
    constructor
    · rw [uid_unfold c release_id ext_id_name ext_id_value "none" fs hresp hfs hnet hrid,
        apply_present_none fs ids old ext_id_name ext_id_value hids hpres]
      rfl
    · refine ⟨Json.obj (setEntry fs externalIdsKey
        (Json.obj (setEntry ids ext_id_name (Json.str ext_id_value)))), ?_, ?_, ?_⟩
      · rw [uid_unfold c release_id ext_id_name ext_id_value "overwrite" fs hresp hfs hnet hrid,
          apply_present_overwrite fs ids old ext_id_name ext_id_value hids hpres]
        rfl
      · rw [getD_obj_of_lookup _ _ _ (lookup_setEntry_self fs externalIdsKey _)]
        exact getD_obj_of_lookup _ _ _ (lookup_setEntry_self ids ext_id_name _)
      · rw [getD_obj_of_lookup _ _ _ (lookup_setEntry_self fs externalIdsKey _)]
        exact hasKey_of_lookup _ _ _ (lookup_setEntry_self ids ext_id_name _)
  · intro ids old hids hpres hnd
    refine ⟨Json.obj (setEntry fs externalIdsKey
      (Json.obj (eraseEntry ids ext_id_name))), ?_, ?_⟩
    · rw [uid_unfold c release_id ext_id_name ext_id_value "delete" fs hresp hfs hnet hrid,
        apply_present_delete fs ids old ext_id_name ext_id_value hids hpres]
      rfl
    · rw [getD_obj_of_lookup _ _ _ (lookup_setEntry_self fs externalIdsKey _),
        hasKey_obj_eq_lookup, lookup_eraseEntry_self ids ext_id_name hnd]
      rfl
  · intro ids hids habs update_mode
    refine ⟨Json.obj (setEntry fs externalIdsKey
      (Json.obj (setEntry ids ext_id_name (Json.str ext_id_value)))), ?_, ?_, ?_⟩
    · rw [uid_unfold c release_id ext_id_name ext_id_value update_mode fs hresp hfs hnet hrid,
        apply_absent_name fs ids ext_id_name ext_id_value update_mode hids habs]
      rfl
    · rw [getD_obj_of_lookup _ _ _ (lookup_setEntry_self fs externalIdsKey _)]
      exact getD_obj_of_lookup _ _ _ (lookup_setEntry_self ids ext_id_name _)
    · rw [getD_obj_of_lookup _ _ _ (lookup_setEntry_self fs externalIdsKey _)]
      exact hasKey_of_lookup _ _ _ (lookup_setEntry_self ids ext_id_name _)
  · intro hnomap update_mode
    refine ⟨Json.obj (setEntry fs externalIdsKey
      (Json.obj [(ext_id_name, Json.str ext_id_value)])), ?_, ?_, ?_⟩
    · rw [uid_unfold c release_id ext_id_name ext_id_value update_mode fs hresp hfs hnet hrid,
        apply_absent_map fs ext_id_name ext_id_value update_mode hnomap]
      rfl
    · rw [getD_obj_of_lookup _ _ _ (lookup_setEntry_self fs externalIdsKey _)]
      simp [Json.getD, List.lookup]
    · rw [getD_obj_of_lookup _ _ _ (lookup_setEntry_self fs externalIdsKey _)]
      simp [Json.hasKey]

def extIdClient : Client :=
  { url := "http://sw360.org/"
    apiGet := fun _ => some (Json.obj
      [("name", Json.str "CR"), ("externalIds", Json.obj [("X", Json.str "1")])])
    net := fun _ => ⟨200, some (Json.str "ok")⟩ }

theorem update_release_external_id_modes_witness :
    update_release_external_id extIdClient "X" "2" "r001" "none"
      = (Except.ok (Json.str "1"),
         [⟨Method.get, "http://sw360.org/" ++ "resource/api/releases/" ++ "r001", none⟩]) := by
  have hnet : ∀ req, (extIdClient.net req).statusCode < 400 := by
    intro req
    show 200 < 400
    decide
  have h := update_release_external_id_modes extIdClient "r001" "X" "2"
    [("name", Json.str "CR"), ("externalIds", Json.obj [("X", Json.str "1")])]
    rfl (by simp) hnet (by decide)
  exact (h.1 [("X", Json.str "1")] (Json.str "1") rfl rfl).1
